import Mathlib

/-
Verification of the PhantomShield behavioral risk-scoring and routing-policy
pipeline, as a shallow embedding of the Python sources:

  app/risk/thresholds.py   -- static risk thresholds
  app/policy/rules.py      -- architectural policy flags
  app/policy/engine.py     -- evaluate_policy
  app/session/decay.py     -- apply_risk_decay
  app/session/models.py    -- SessionState
  app/session/manager.py   -- SessionManager operations
  app/behavior/rules.py    -- BehaviorRuleEngine.evaluate
  app/behavior/features.py -- BehaviorFeatureExtractor.extract
  app/canary/defnitions.py -- CANARY_ACTIONS registry
  app/canary/detector.py   -- detect_canary_hit

Conventions of the embedding:
- Python floats are modelled as exact rationals (ℚ); the constants involved
  (0.01, 0.05, 0.30, ...) are written as fractions.
- Wall-clock timestamps (datetime.utcnow ()) are modelled as rationals counting
  seconds; every operation that reads the clock takes the current time as an
  explicit argument.  DECAY_GRACE_PERIOD (timedelta of 2 minutes) becomes 120
  seconds.
- Python dicts keyed by strings are modelled as association lists in insertion
  order; dict.get with a default becomes a lookup with a default.
- Fallible lookups return Option; no operation below can raise.
-/

namespace PhantomShield

/-! ## app/risk/thresholds.py -/

def LOW_RISK_THRESHOLD : ℚ := 30 / 100

def HIGH_RISK_THRESHOLD : ℚ := 60 / 100

/-! ## app/policy/rules.py -/

def ONE_WAY_ESCALATION : Bool := true

/-! ## app/policy/engine.py -/

/-- The two routing states, `Literal["real", "decoy"]` in the source. -/
inductive Route where
  | real
  | decoy
deriving DecidableEq, Repr

/-- Mirror of the frozen dataclass `PolicyDecision` in app/policy/engine.py. -/
structure PolicyDecision where
  route : Route
  reason : String
deriving DecidableEq, Repr

/-- Mirror of `evaluate_policy` in app/policy/engine.py: three ordered rules,
first match wins. -/
def evaluate_policy (risk_score : ℚ) (current_route : Route) : PolicyDecision :=
  if ONE_WAY_ESCALATION = true ∧ current_route = Route.decoy then
    { route := Route.decoy, reason := "one_way_escalation_lock" }
  else if HIGH_RISK_THRESHOLD ≤ risk_score then
    { route := Route.decoy, reason := "risk_above_high_threshold" }
  else
    { route := Route.real, reason := "risk_below_threshold" }

/-! ## app/session/decay.py -/

/-- Grace period `DECAY_GRACE_PERIOD = timedelta(minutes=2)`, in seconds. -/
def DECAY_GRACE_PERIOD : ℚ := 120

def DECAY_STEP : ℚ := 1 / 100

def MAX_DECAY_PER_CYCLE : ℚ := 3 / 100

def MIN_RISK_FLOOR : ℚ := 5 / 100

/-- Mirror of `apply_risk_decay` in app/session/decay.py.  The source reads
`datetime.utcnow()`; here `now` is the explicit first argument. -/
def apply_risk_decay (now current_risk last_activity_at : ℚ) : ℚ :=
  if now - last_activity_at < DECAY_GRACE_PERIOD then
    current_risk
  else
    max MIN_RISK_FLOOR (current_risk - min MAX_DECAY_PER_CYCLE DECAY_STEP)

/-! ## app/session/models.py -/

/-- Python dict assignment `d[k] = v` on a string-keyed dict, modelled on an
association list kept in insertion order: overwrite the value when the key is
present, append otherwise. -/
def dictSet (d : List (String × Bool)) (k : String) (v : Bool) :
    List (String × Bool) :=
  if d.any (fun p => p.1 == k) then
    d.map (fun p => if p.1 == k then (k, v) else p)
  else
    d ++ [(k, v)]

/-- Mirror of the dataclass `SessionState` in app/session/models.py. -/
structure SessionState where
  session_id : String
  user_id : String
  routing_state : Route := Route.real
  risk_score : ℚ := 0
  flags : List (String × Bool) := []
  created_at : ℚ := 0
  last_activity_at : ℚ := 0
deriving DecidableEq, Repr

/-! ## app/session/manager.py -/

namespace SessionManager

/-- Mirror of `SessionManager.record_activity`. -/
def record_activity (s : SessionState) (now : ℚ) : SessionState :=
  { s with last_activity_at := now }

/-- Mirror of `SessionManager.increase_risk`.  A Python `reason` argument of
`None` or `""` is falsy and records no flag. -/
def increase_risk (s : SessionState) (amount : ℚ) (reason : Option String) :
    SessionState :=
  if amount ≤ 0 then s
  else
    let s₁ := { s with risk_score := min 1 (s.risk_score + amount) }
    match reason with
    | some r => if r = "" then s₁
                else { s₁ with flags := dictSet s₁.flags ("risk_" ++ r) true }
    | none => s₁

/-- Mirror of `SessionManager.decrease_risk`. -/
def decrease_risk (s : SessionState) (amount : ℚ) : SessionState :=
  if amount ≤ 0 then s
  else { s with risk_score := max LOW_RISK_THRESHOLD (s.risk_score - amount) }

/-- Mirror of `SessionManager.apply_decay`; `now` is the clock value read
inside `apply_risk_decay`. -/
def apply_decay (s : SessionState) (now : ℚ) : SessionState :=
  { s with risk_score := apply_risk_decay now s.risk_score s.last_activity_at }

/-- Mirror of `SessionManager.evaluate_routing`: escalate only when the policy
decision is decoy and the session is not already on decoy. -/
def evaluate_routing (s : SessionState) : SessionState :=
  let decision := evaluate_policy s.risk_score s.routing_state
  if decision.route = Route.decoy ∧ s.routing_state ≠ Route.decoy then
    { s with routing_state := Route.decoy,
             flags := dictSet s.flags "routed_to_decoy" true }
  else s

/-- Mirror of `SessionManager.process_cycle`: record activity, decay, evaluate
routing.  The source reads the clock once in `record_activity` (`now₁`) and
once more inside `apply_risk_decay` (`now₂`). -/
def process_cycle (s : SessionState) (now₁ now₂ : ℚ) : SessionState :=
  evaluate_routing (apply_decay (record_activity s now₁) now₂)

end SessionManager

/-- One SessionManager operation, with the clock values it reads made
explicit. -/
inductive Op where
  | record_activity (now : ℚ)
  | increase_risk (amount : ℚ) (reason : Option String)
  | decrease_risk (amount : ℚ)
  | apply_decay (now : ℚ)
  | evaluate_routing
  | process_cycle (now₁ now₂ : ℚ)

/-- Apply one SessionManager operation to a session state. -/
def step (op : Op) (s : SessionState) : SessionState :=
  match op with
  | Op.record_activity now => SessionManager.record_activity s now
  | Op.increase_risk amount reason => SessionManager.increase_risk s amount reason
  | Op.decrease_risk amount => SessionManager.decrease_risk s amount
  | Op.apply_decay now => SessionManager.apply_decay s now
  | Op.evaluate_routing => SessionManager.evaluate_routing s
  | Op.process_cycle now₁ now₂ => SessionManager.process_cycle s now₁ now₂

/-- Apply a sequence of SessionManager operations, oldest first. -/
def runOps (ops : List Op) (s : SessionState) : SessionState :=
  ops.foldl (fun s op => step op s) s

/-! ## Helper lemmas about the session operations -/

lemma record_activity_risk (s : SessionState) (now : ℚ) :
    (SessionManager.record_activity s now).risk_score = s.risk_score := rfl

lemma record_activity_routing (s : SessionState) (now : ℚ) :
    (SessionManager.record_activity s now).routing_state = s.routing_state := rfl

lemma record_activity_last (s : SessionState) (now : ℚ) :
    (SessionManager.record_activity s now).last_activity_at = now := rfl

lemma increase_risk_risk (s : SessionState) (a : ℚ) (r : Option String) :
    (SessionManager.increase_risk s a r).risk_score =
      if a ≤ 0 then s.risk_score else min 1 (s.risk_score + a) := by
  unfold SessionManager.increase_risk
  cases r with
  | none => split <;> simp [*]
  | some x =>
      split
      · simp [*]
      · dsimp only
        split <;> rfl

lemma increase_risk_routing (s : SessionState) (a : ℚ) (r : Option String) :
    (SessionManager.increase_risk s a r).routing_state = s.routing_state := by
  unfold SessionManager.increase_risk
  cases r with
  | none => split <;> rfl
  | some x =>
      split
      · rfl
      · dsimp only
        split <;> rfl

lemma decrease_risk_risk (s : SessionState) (a : ℚ) :
    (SessionManager.decrease_risk s a).risk_score =
      if a ≤ 0 then s.risk_score
      else max LOW_RISK_THRESHOLD (s.risk_score - a) := by
  unfold SessionManager.decrease_risk
  split <;> simp [*]

lemma decrease_risk_routing (s : SessionState) (a : ℚ) :
    (SessionManager.decrease_risk s a).routing_state = s.routing_state := by
  unfold SessionManager.decrease_risk
  split <;> rfl

lemma apply_decay_risk (s : SessionState) (now : ℚ) :
    (SessionManager.apply_decay s now).risk_score =
      apply_risk_decay now s.risk_score s.last_activity_at := rfl

lemma apply_decay_routing (s : SessionState) (now : ℚ) :
    (SessionManager.apply_decay s now).routing_state = s.routing_state := rfl

lemma evaluate_routing_risk (s : SessionState) :
    (SessionManager.evaluate_routing s).risk_score = s.risk_score := by
  unfold SessionManager.evaluate_routing
  dsimp only
  split <;> rfl

lemma evaluate_routing_cases (s : SessionState) :
    (SessionManager.evaluate_routing s).routing_state = s.routing_state ∨
      (s.routing_state = Route.real ∧
        (SessionManager.evaluate_routing s).routing_state = Route.decoy) := by
  unfold SessionManager.evaluate_routing
  dsimp only
  split
  · next h =>
      cases hr : s.routing_state with
      | real => exact Or.inr ⟨rfl, rfl⟩
      | decoy => exact absurd hr h.2
  · exact Or.inl rfl

lemma evaluate_routing_preserves_decoy (s : SessionState)
    (h : s.routing_state = Route.decoy) :
    (SessionManager.evaluate_routing s).routing_state = Route.decoy := by
  rcases evaluate_routing_cases s with heq | ⟨hreal, _⟩
  · rw [heq, h]
  · rw [hreal] at h; exact absurd h (by simp)

lemma step_routing_cases (op : Op) (s : SessionState) :
    (step op s).routing_state = s.routing_state ∨
      (s.routing_state = Route.real ∧ (step op s).routing_state = Route.decoy) := by
  cases op with
  | record_activity now => exact Or.inl (record_activity_routing s now)
  | increase_risk a r => exact Or.inl (increase_risk_routing s a r)
  | decrease_risk a => exact Or.inl (decrease_risk_routing s a)
  | apply_decay now => exact Or.inl (apply_decay_routing s now)
  | evaluate_routing => exact evaluate_routing_cases s
  | process_cycle now₁ now₂ =>
      have hpre :
          (SessionManager.apply_decay
              (SessionManager.record_activity s now₁) now₂).routing_state =
            s.routing_state := by
        rw [apply_decay_routing, record_activity_routing]
      rcases evaluate_routing_cases
          (SessionManager.apply_decay
            (SessionManager.record_activity s now₁) now₂) with heq | ⟨hreal, hdec⟩
      · exact Or.inl (heq.trans hpre)
      · exact Or.inr ⟨hpre ▸ hreal, hdec⟩

lemma step_preserves_decoy (op : Op) (s : SessionState)
    (h : s.routing_state = Route.decoy) :
    (step op s).routing_state = Route.decoy := by
  rcases step_routing_cases op s with heq | ⟨hreal, _⟩
  · rw [heq, h]
  · rw [hreal] at h; exact absurd h (by simp)

lemma runOps_preserves_decoy (ops : List Op) :
    ∀ s : SessionState, s.routing_state = Route.decoy →
      (runOps ops s).routing_state = Route.decoy := by
  induction ops with
  | nil => intro s h; exact h
  | cons op rest ih =>
      intro s h
      have := ih (step op s) (step_preserves_decoy op s h)
      simpa [runOps] using this

/-! ## Claim theorems C1 - C6 -/

/-- Claim C1: one-way routing escalation is terminal at the state-machine
level.  From a state whose `routing_state` is decoy, no sequence of
SessionManager operations (`record_activity`, `increase_risk`, `decrease_risk`,
`apply_decay`, `evaluate_routing`, `process_cycle`) ever moves
`routing_state` back to real, and starting from real the only transition any
single operation performs is real to decoy. -/
theorem decoy_escalation_terminal :
    (∀ (ops : List Op) (s : SessionState), s.routing_state = Route.decoy →
        (runOps ops s).routing_state = Route.decoy) ∧
    (∀ (op : Op) (s : SessionState),
        (step op s).routing_state = s.routing_state ∨
          (s.routing_state = Route.real ∧
            (step op s).routing_state = Route.decoy)) :=
  ⟨fun ops s h => runOps_preserves_decoy ops s h, step_routing_cases⟩

/-- A session already routed to the decoy backend, used as a concrete
evaluation point. -/
def decoySession : SessionState :=
  { session_id := "sid-decoy", user_id := "uid-1",
    routing_state := Route.decoy, risk_score := 10 / 100 }

theorem decoy_escalation_terminal_witness :
    decoySession.routing_state = Route.decoy ∧
    (runOps [Op.decrease_risk 1, Op.process_cycle 0 300]
        decoySession).routing_state = Route.decoy :=
  ⟨rfl, decoy_escalation_terminal.1 [Op.decrease_risk 1, Op.process_cycle 0 300]
      decoySession rfl⟩

/-- Claim C2: for every risk score, `evaluate_policy` on a session whose
current route is decoy returns the decoy route with reason
"one_way_escalation_lock", irrespective of the risk score (including 0). -/
theorem evaluate_policy_decoy_locked (risk_score : ℚ) :
    evaluate_policy risk_score Route.decoy =
      { route := Route.decoy, reason := "one_way_escalation_lock" } := by
  simp [evaluate_policy, ONE_WAY_ESCALATION]

/-- A session on the real backend with mid-range risk, used as a concrete
evaluation point. -/
def exampleSession : SessionState :=
  { session_id := "sid-1", user_id := "uid-1", risk_score := 40 / 100 }

/-- Claim C3: inside `process_cycle` the decay step never changes the risk
score, because `record_activity` has just set `last_activity_at` to the
current time, so the elapsed time seen by `apply_risk_decay` (the interval
between the two clock reads of a single cycle) is below the 2-minute grace
period.  Decay can only take effect when `apply_decay` is called outside
`process_cycle`. -/
theorem process_cycle_decay_is_noop (s : SessionState) (now₁ now₂ : ℚ)
    (h : now₂ - now₁ < DECAY_GRACE_PERIOD) :
    (SessionManager.process_cycle s now₁ now₂).risk_score = s.risk_score := by
  unfold SessionManager.process_cycle
  rw [evaluate_routing_risk, apply_decay_risk, record_activity_risk,
    record_activity_last]
  unfold apply_risk_decay
  rw [if_pos h]

theorem process_cycle_decay_is_noop_witness :
    (60 : ℚ) - 0 < DECAY_GRACE_PERIOD ∧
    (SessionManager.process_cycle exampleSession 0 60).risk_score =
      exampleSession.risk_score :=
  ⟨by norm_num [DECAY_GRACE_PERIOD],
    process_cycle_decay_is_noop exampleSession 0 60
      (by norm_num [DECAY_GRACE_PERIOD])⟩

lemma apply_risk_decay_mem_unit (now last r : ℚ) (h₀ : 0 ≤ r) (h₁ : r ≤ 1) :
    0 ≤ apply_risk_decay now r last ∧ apply_risk_decay now r last ≤ 1 := by
  unfold apply_risk_decay
  split
  · exact ⟨h₀, h₁⟩
  · constructor
    · have hf : (0:ℚ) ≤ MIN_RISK_FLOOR := by norm_num [MIN_RISK_FLOOR]
      exact le_trans hf (le_max_left _ _)
    · apply max_le
      · norm_num [MIN_RISK_FLOOR]
      · have hd : (0:ℚ) ≤ min MAX_DECAY_PER_CYCLE DECAY_STEP := by
          norm_num [MAX_DECAY_PER_CYCLE, DECAY_STEP, min_def]
        linarith

/-- Claim C4: every SessionManager operation preserves the invariant that the
risk score lies in [0, 1]: `increase_risk` clamps to at most 1 (and is a
no-op for non-positive amounts), `decrease_risk` clamps to at least
LOW_RISK_THRESHOLD = 0.30, and `apply_decay` (hence `process_cycle`) either
leaves the score unchanged or clamps to at least MIN_RISK_FLOOR = 0.05. -/
theorem risk_score_unit_interval_preserved (op : Op) (s : SessionState)
    (h₀ : 0 ≤ s.risk_score) (h₁ : s.risk_score ≤ 1) :
    0 ≤ (step op s).risk_score ∧ (step op s).risk_score ≤ 1 := by
  cases op with
  | record_activity now => exact ⟨h₀, h₁⟩
  | increase_risk a r =>
      rw [show step (Op.increase_risk a r) s = SessionManager.increase_risk s a r
        from rfl, increase_risk_risk]
      split
      · exact ⟨h₀, h₁⟩
      · next h =>
          push_neg at h
          exact ⟨le_min (by norm_num) (by linarith), min_le_left _ _⟩
  | decrease_risk a =>
      rw [show step (Op.decrease_risk a) s = SessionManager.decrease_risk s a
        from rfl, decrease_risk_risk]
      split
      · exact ⟨h₀, h₁⟩
      · next h =>
          push_neg at h
          constructor
          · have : (0:ℚ) ≤ LOW_RISK_THRESHOLD := by norm_num [LOW_RISK_THRESHOLD]
            exact le_trans this (le_max_left _ _)
          · apply max_le
            · norm_num [LOW_RISK_THRESHOLD]
            · linarith
  | apply_decay now =>
      rw [show step (Op.apply_decay now) s = SessionManager.apply_decay s now
        from rfl, apply_decay_risk]
      exact apply_risk_decay_mem_unit now s.last_activity_at s.risk_score h₀ h₁
  | evaluate_routing =>
      rw [show step Op.evaluate_routing s = SessionManager.evaluate_routing s
        from rfl, evaluate_routing_risk]
      exact ⟨h₀, h₁⟩
  | process_cycle now₁ now₂ =>
      rw [show step (Op.process_cycle now₁ now₂) s =
        SessionManager.process_cycle s now₁ now₂ from rfl]
      unfold SessionManager.process_cycle
      rw [evaluate_routing_risk, apply_decay_risk, record_activity_risk]
      exact apply_risk_decay_mem_unit now₂ _ s.risk_score h₀ h₁

theorem risk_score_unit_interval_preserved_witness :
    ((0:ℚ) ≤ exampleSession.risk_score ∧ exampleSession.risk_score ≤ 1) ∧
    (0 ≤ (step (Op.increase_risk (80 / 100) (some "canary_privilege_probe"))
        exampleSession).risk_score ∧
      (step (Op.increase_risk (80 / 100) (some "canary_privilege_probe"))
        exampleSession).risk_score ≤ 1) :=
  ⟨⟨by norm_num [exampleSession], by norm_num [exampleSession]⟩,
    risk_score_unit_interval_preserved
      (Op.increase_risk (80 / 100) (some "canary_privilege_probe"))
      exampleSession (by norm_num [exampleSession])
      (by norm_num [exampleSession])⟩

/-- Claim C5: `apply_risk_decay` returns the risk unchanged whenever the
elapsed time since last activity is below the 2-minute grace period, and
otherwise returns max(MIN_RISK_FLOOR, risk - min(MAX_DECAY_PER_CYCLE,
DECAY_STEP)); in particular a session idle 5 minutes with risk 0.20 decays
to 0.19. -/
theorem apply_risk_decay_grace_and_step (now current_risk last_activity_at : ℚ) :
    (now - last_activity_at < DECAY_GRACE_PERIOD →
        apply_risk_decay now current_risk last_activity_at = current_risk) ∧
    (DECAY_GRACE_PERIOD ≤ now - last_activity_at →
        apply_risk_decay now current_risk last_activity_at =
          max MIN_RISK_FLOOR
            (current_risk - min MAX_DECAY_PER_CYCLE DECAY_STEP)) ∧
    apply_risk_decay 300 (20 / 100) 0 = 19 / 100 := by
  refine ⟨fun h => ?_, fun h => ?_, ?_⟩
  · unfold apply_risk_decay
    rw [if_pos h]
  · unfold apply_risk_decay
    rw [if_neg (not_lt.mpr h)]
  · norm_num [apply_risk_decay, DECAY_GRACE_PERIOD, MIN_RISK_FLOOR,
      MAX_DECAY_PER_CYCLE, DECAY_STEP, min_def, max_def]

theorem apply_risk_decay_grace_and_step_witness :
    ((60:ℚ) - 0 < DECAY_GRACE_PERIOD ∧
      apply_risk_decay 60 (40 / 100) 0 = 40 / 100) ∧
    (DECAY_GRACE_PERIOD ≤ (300:ℚ) - 0 ∧
      apply_risk_decay 300 (40 / 100) 0 =
        max MIN_RISK_FLOOR (40 / 100 - min MAX_DECAY_PER_CYCLE DECAY_STEP)) :=
  ⟨⟨by norm_num [DECAY_GRACE_PERIOD],
      (apply_risk_decay_grace_and_step 60 (40 / 100) 0).1
        (by norm_num [DECAY_GRACE_PERIOD])⟩,
    ⟨by norm_num [DECAY_GRACE_PERIOD],
      (apply_risk_decay_grace_and_step 300 (40 / 100) 0).2.1
        (by norm_num [DECAY_GRACE_PERIOD])⟩⟩

/-- Claim C6, counterexample: the claim quantifies over every starting risk
score, but for a starting score below MIN_RISK_FLOOR (here 0, a legal risk
score) a single decay application beyond the grace period RAISES the risk to
the floor 0.05, so the produced sequence is not monotonically
non-increasing. -/
theorem decay_raises_risk_from_below_floor :
    DECAY_GRACE_PERIOD ≤ (300:ℚ) - 0 ∧
    apply_risk_decay 300 0 0 = MIN_RISK_FLOOR ∧
    ¬ apply_risk_decay 300 0 0 ≤ 0 := by
  norm_num [apply_risk_decay, DECAY_GRACE_PERIOD, MIN_RISK_FLOOR,
    MAX_DECAY_PER_CYCLE, DECAY_STEP, min_def, max_def]

/-- Claim C6, amended: for every starting risk score at least
MIN_RISK_FLOOR = 0.05, repeated applications of decay with no intervening
activity (`last_activity_at` held fixed, beyond the grace period) produce a
monotonically non-increasing sequence that never goes below the floor. -/
theorem decay_monotone_above_floor (now last_activity_at r₀ : ℚ)
    (hgrace : DECAY_GRACE_PERIOD ≤ now - last_activity_at)
    (hfloor : MIN_RISK_FLOOR ≤ r₀) (n : ℕ) :
    (fun r => apply_risk_decay now r last_activity_at)^[n + 1] r₀ ≤
        (fun r => apply_risk_decay now r last_activity_at)^[n] r₀ ∧
      MIN_RISK_FLOOR ≤ (fun r => apply_risk_decay now r last_activity_at)^[n] r₀ := by
  have hstep : ∀ r : ℚ, MIN_RISK_FLOOR ≤ r →
      apply_risk_decay now r last_activity_at ≤ r ∧
        MIN_RISK_FLOOR ≤ apply_risk_decay now r last_activity_at := by
    intro r hr
    unfold apply_risk_decay
    rw [if_neg (not_lt.mpr hgrace)]
    constructor
    · apply max_le hr
      have hd : (0:ℚ) ≤ min MAX_DECAY_PER_CYCLE DECAY_STEP := by
        norm_num [MAX_DECAY_PER_CYCLE, DECAY_STEP, min_def]
      linarith
    · exact le_max_left _ _
  have hinv : ∀ m : ℕ,
      MIN_RISK_FLOOR ≤ (fun r => apply_risk_decay now r last_activity_at)^[m] r₀ := by
    intro m
    induction m with
    | zero => simpa using hfloor
    | succ k ih =>
        rw [Function.iterate_succ_apply']
        exact (hstep _ ih).2
  refine ⟨?_, hinv n⟩
  rw [Function.iterate_succ_apply']
  exact (hstep _ (hinv n)).1

theorem decay_monotone_above_floor_witness :
    (DECAY_GRACE_PERIOD ≤ (300:ℚ) - 0 ∧ MIN_RISK_FLOOR ≤ (1:ℚ) / 2) ∧
    ((fun r => apply_risk_decay 300 r 0)^[1] (1 / 2) ≤
        (fun r => apply_risk_decay 300 r 0)^[0] (1 / 2) ∧
      MIN_RISK_FLOOR ≤ (fun r => apply_risk_decay 300 r 0)^[0] (1 / 2)) :=
  ⟨⟨by norm_num [DECAY_GRACE_PERIOD], by norm_num [MIN_RISK_FLOOR]⟩,
    decay_monotone_above_floor 300 0 (1 / 2)
      (by norm_num [DECAY_GRACE_PERIOD]) (by norm_num [MIN_RISK_FLOOR]) 0⟩

/-! ## app/behavior/rules.py -/

/-- Python `features.get(key, default)` on a string-keyed dict, modelled on an
association list. -/
def featGet (features : List (String × ℚ)) (key : String) (default : ℚ) : ℚ :=
  match features.lookup key with
  | some v => v
  | none => default

namespace BehaviorRuleEngine

def REQUEST_RATE_LOW_THRESHOLD : ℚ := 8

def REQUEST_RATE_HIGH_THRESHOLD : ℚ := 20

def REQUEST_RATE_LOW_RISK : ℚ := 10 / 100

def REQUEST_RATE_HIGH_RISK : ℚ := 20 / 100

def ERROR_RATE_THRESHOLD : ℚ := 3 / 10

def ERROR_RATE_RISK : ℚ := 15 / 100

def SENSITIVE_RATIO_THRESHOLD : ℚ := 2 / 10

def SENSITIVE_RATIO_RISK : ℚ := 15 / 100

def ROUTE_DIVERSITY_THRESHOLD : ℚ := 9 / 10

def ENUMERATION_REQUEST_THRESHOLD : ℚ := 30

def ENUMERATION_RISK : ℚ := 15 / 100

def INTERVAL_VARIANCE_THRESHOLD : ℚ := 1 / 1000

def AUTOMATION_REQUEST_THRESHOLD : ℚ := 15

def AUTOMATION_RISK : ℚ := 10 / 100

def MAX_RISK_DELTA : ℚ := 5 / 10

/-- Mirror of `BehaviorRuleEngine._evaluate_request_rate`. -/
def evaluate_request_rate (features : List (String × ℚ)) : ℚ :=
  let requests_per_second := featGet features "requests_per_second" 0
  if requests_per_second > REQUEST_RATE_HIGH_THRESHOLD then REQUEST_RATE_HIGH_RISK
  else if requests_per_second > REQUEST_RATE_LOW_THRESHOLD then REQUEST_RATE_LOW_RISK
  else 0

/-- Mirror of `BehaviorRuleEngine._evaluate_error_rate`. -/
def evaluate_error_rate (features : List (String × ℚ)) : ℚ :=
  let error_rate := featGet features "error_rate" 0
  if error_rate > ERROR_RATE_THRESHOLD then ERROR_RATE_RISK else 0

/-- Mirror of `BehaviorRuleEngine._evaluate_sensitive_route_probing`. -/
def evaluate_sensitive_route_probing (features : List (String × ℚ)) : ℚ :=
  let sensitive_ratio := featGet features "sensitive_ratio" 0
  if sensitive_ratio > SENSITIVE_RATIO_THRESHOLD then SENSITIVE_RATIO_RISK else 0

/-- Mirror of `BehaviorRuleEngine._evaluate_enumeration_behavior`. -/
def evaluate_enumeration_behavior (features : List (String × ℚ)) : ℚ :=
  let route_diversity := featGet features "route_diversity" 0
  let total_requests := featGet features "total_requests" 0
  if route_diversity > ROUTE_DIVERSITY_THRESHOLD ∧
      total_requests > ENUMERATION_REQUEST_THRESHOLD then
    ENUMERATION_RISK
  else 0

/-- Mirror of `BehaviorRuleEngine._evaluate_automation_pattern`. -/
def evaluate_automation_pattern (features : List (String × ℚ)) : ℚ :=
  let interval_variance := featGet features "interval_variance" 0
  let total_requests := featGet features "total_requests" 0
  if interval_variance < INTERVAL_VARIANCE_THRESHOLD ∧
      total_requests > AUTOMATION_REQUEST_THRESHOLD then
    AUTOMATION_RISK
  else 0

/-- Mirror of `BehaviorRuleEngine.evaluate`: empty features return 0, the
five rule contributions are summed and the total is capped at
MAX_RISK_DELTA. -/
def evaluate (features : List (String × ℚ)) : ℚ :=
  if features.isEmpty then 0
  else
    min
      (evaluate_request_rate features + evaluate_error_rate features +
        evaluate_sensitive_route_probing features +
        evaluate_enumeration_behavior features +
        evaluate_automation_pattern features)
      MAX_RISK_DELTA

end BehaviorRuleEngine

/-! ## app/behavior/features.py -/

/-- Argument of `BehaviorFeatureExtractor.extract`: a Python dict produced by
`BehaviorCollector.get_session_snapshot`.  Each recognised key is optional,
matching `snapshot.get(key, default)`; `extra_keys` stands for any other keys
present, which influence only whether the dict is empty. -/
structure Snapshot where
  total_requests : Option ℚ := none
  request_timestamps : Option (List ℚ) := none
  error_count : Option ℚ := none
  sensitive_route_hits : Option ℚ := none
  unique_route_count : Option ℚ := none
  extra_keys : List String := []
deriving DecidableEq, Repr

/-- Python falsiness of the snapshot dict: no keys at all. -/
def Snapshot.isEmpty (s : Snapshot) : Bool :=
  s.total_requests.isNone && s.request_timestamps.isNone &&
    s.error_count.isNone && s.sensitive_route_hits.isNone &&
    s.unique_route_count.isNone && s.extra_keys.isEmpty

/-- Python `min(l)` for a nonempty list; the `[]` case is unreachable in the
source (guarded by a length check) and maps to 0. -/
def listMin : List ℚ → ℚ
  | [] => 0
  | x :: xs => xs.foldl min x

/-- Python `max(l)` for a nonempty list; the `[]` case is unreachable in the
source (guarded by a length check) and maps to 0. -/
def listMax : List ℚ → ℚ
  | [] => 0
  | x :: xs => xs.foldl max x

def listSum (l : List ℚ) : ℚ := l.foldl (· + ·) 0

/-- Python `statistics.mean`: sum divided by length. -/
def listMean (l : List ℚ) : ℚ := listSum l / l.length

/-- Python `statistics.variance`: sample variance with denominator n - 1; the source
only calls it with at least two data points. -/
def sampleVariance (l : List ℚ) : ℚ :=
  let m := listMean l
  listSum (l.map (fun x => (x - m) ^ 2)) / ((l.length : ℚ) - 1)

def insertSorted (x : ℚ) : List ℚ → List ℚ
  | [] => [x]
  | y :: ys => if x ≤ y then x :: y :: ys else y :: insertSorted x ys

/-- Python `sorted` on a list of numbers (insertion sort). -/
def sortQ (l : List ℚ) : List ℚ := l.foldr insertSorted []

/-- The consecutive differences `l[i+1] - l[i]`. -/
def intervalsOf (l : List ℚ) : List ℚ :=
  (l.zip l.tail).map (fun p => p.2 - p.1)

/-- The literal `1e-6`, the epsilon guarding division by a degenerate duration. -/
def EPSILON : ℚ := 1 / 1000000

namespace BehaviorFeatureExtractor

/-- Mirror of `BehaviorFeatureExtractor._extract_volume_features`. -/
def extract_volume_features (snapshot : Snapshot) : List (String × ℚ) :=
  let total_requests := snapshot.total_requests.getD 0
  let timestamps := snapshot.request_timestamps.getD []
  let requests_per_second : ℚ :=
    if timestamps.length < 2 then 0
    else
      let duration := listMax timestamps - listMin timestamps
      if duration > EPSILON then total_requests / duration
      else total_requests / EPSILON
  [("total_requests", total_requests),
   ("requests_per_second", requests_per_second)]

/-- Mirror of `BehaviorFeatureExtractor._extract_timing_features`. -/
def extract_timing_features (snapshot : Snapshot) : List (String × ℚ) :=
  let timestamps := snapshot.request_timestamps.getD []
  if timestamps.length < 2 then
    [("session_duration", 0), ("interval_mean", 0), ("interval_variance", 0)]
  else
    let sorted_timestamps := sortQ timestamps
    let duration := sorted_timestamps.getLastD 0 - sorted_timestamps.headD 0
    let intervals := intervalsOf sorted_timestamps
    let interval_mean := if intervals.isEmpty then 0 else listMean intervals
    let interval_variance :=
      if intervals.length > 1 then sampleVariance intervals else 0
    [("session_duration", duration), ("interval_mean", interval_mean),
     ("interval_variance", interval_variance)]

/-- Mirror of `BehaviorFeatureExtractor._extract_behavioral_ratios`. -/
def extract_behavioral_ratios (snapshot : Snapshot) : List (String × ℚ) :=
  let total_requests := snapshot.total_requests.getD 0
  let error_rate :=
    if total_requests > 0 then (snapshot.error_count.getD 0) / total_requests
    else 0
  let sensitive_ratio :=
    if total_requests > 0 then
      (snapshot.sensitive_route_hits.getD 0) / total_requests
    else 0
  let route_diversity :=
    if total_requests > 0 then
      (snapshot.unique_route_count.getD 0) / total_requests
    else 0
  [("error_rate", error_rate), ("sensitive_ratio", sensitive_ratio),
   ("route_diversity", route_diversity)]

/-- Mirror of `BehaviorFeatureExtractor.extract`: empty snapshot gives an
empty feature map, otherwise the volume, timing and ratio features in
insertion order. -/
def extract (snapshot : Snapshot) : List (String × ℚ) :=
  if snapshot.isEmpty then []
  else
    extract_volume_features snapshot ++ extract_timing_features snapshot ++
      extract_behavioral_ratios snapshot

end BehaviorFeatureExtractor

/-! ## Helper lemmas about the rule engine -/

lemma request_rate_cases (f : List (String × ℚ)) :
    BehaviorRuleEngine.evaluate_request_rate f = 0 ∨
      BehaviorRuleEngine.evaluate_request_rate f =
        BehaviorRuleEngine.REQUEST_RATE_LOW_RISK ∨
      BehaviorRuleEngine.evaluate_request_rate f =
        BehaviorRuleEngine.REQUEST_RATE_HIGH_RISK := by
  unfold BehaviorRuleEngine.evaluate_request_rate
  dsimp only
  split
  · exact Or.inr (Or.inr rfl)
  · split
    · exact Or.inr (Or.inl rfl)
    · exact Or.inl rfl

lemma error_rate_cases (f : List (String × ℚ)) :
    BehaviorRuleEngine.evaluate_error_rate f = 0 ∨
      BehaviorRuleEngine.evaluate_error_rate f =
        BehaviorRuleEngine.ERROR_RATE_RISK := by
  unfold BehaviorRuleEngine.evaluate_error_rate
  dsimp only
  split
  · exact Or.inr rfl
  · exact Or.inl rfl

lemma sensitive_probing_cases (f : List (String × ℚ)) :
    BehaviorRuleEngine.evaluate_sensitive_route_probing f = 0 ∨
      BehaviorRuleEngine.evaluate_sensitive_route_probing f =
        BehaviorRuleEngine.SENSITIVE_RATIO_RISK := by
  unfold BehaviorRuleEngine.evaluate_sensitive_route_probing
  dsimp only
  split
  · exact Or.inr rfl
  · exact Or.inl rfl

lemma enumeration_cases (f : List (String × ℚ)) :
    BehaviorRuleEngine.evaluate_enumeration_behavior f = 0 ∨
      BehaviorRuleEngine.evaluate_enumeration_behavior f =
        BehaviorRuleEngine.ENUMERATION_RISK := by
  unfold BehaviorRuleEngine.evaluate_enumeration_behavior
  dsimp only
  split
  · exact Or.inr rfl
  · exact Or.inl rfl

lemma automation_cases (f : List (String × ℚ)) :
    BehaviorRuleEngine.evaluate_automation_pattern f = 0 ∨
      BehaviorRuleEngine.evaluate_automation_pattern f =
        BehaviorRuleEngine.AUTOMATION_RISK := by
  unfold BehaviorRuleEngine.evaluate_automation_pattern
  dsimp only
  split
  · exact Or.inr rfl
  · exact Or.inl rfl

lemma request_rate_nonneg (f : List (String × ℚ)) :
    0 ≤ BehaviorRuleEngine.evaluate_request_rate f := by
  rcases request_rate_cases f with h | h | h <;>
    norm_num [h, BehaviorRuleEngine.REQUEST_RATE_LOW_RISK,
      BehaviorRuleEngine.REQUEST_RATE_HIGH_RISK]

lemma error_rate_nonneg (f : List (String × ℚ)) :
    0 ≤ BehaviorRuleEngine.evaluate_error_rate f := by
  rcases error_rate_cases f with h | h <;>
    norm_num [h, BehaviorRuleEngine.ERROR_RATE_RISK]

lemma sensitive_probing_nonneg (f : List (String × ℚ)) :
    0 ≤ BehaviorRuleEngine.evaluate_sensitive_route_probing f := by
  rcases sensitive_probing_cases f with h | h <;>
    norm_num [h, BehaviorRuleEngine.SENSITIVE_RATIO_RISK]

lemma enumeration_nonneg (f : List (String × ℚ)) :
    0 ≤ BehaviorRuleEngine.evaluate_enumeration_behavior f := by
  rcases enumeration_cases f with h | h <;>
    norm_num [h, BehaviorRuleEngine.ENUMERATION_RISK]

lemma automation_nonneg (f : List (String × ℚ)) :
    0 ≤ BehaviorRuleEngine.evaluate_automation_pattern f := by
  rcases automation_cases f with h | h <;>
    norm_num [h, BehaviorRuleEngine.AUTOMATION_RISK]

/-! ## Claim theorems C7 - C9 -/

/-- Claim C7: for every feature map (arbitrary values, any subset of keys
present), `BehaviorRuleEngine.evaluate` returns a value in [0, 0.5], each of
the five rules contributes either 0 or its fixed amount (the request-rate
rule one of its two tiers), and the empty feature map yields exactly 0. -/
theorem rule_engine_delta_bounded (features : List (String × ℚ)) :
    (0 ≤ BehaviorRuleEngine.evaluate features ∧
      BehaviorRuleEngine.evaluate features ≤ 1 / 2) ∧
    (BehaviorRuleEngine.evaluate_request_rate features = 0 ∨
      BehaviorRuleEngine.evaluate_request_rate features =
        BehaviorRuleEngine.REQUEST_RATE_LOW_RISK ∨
      BehaviorRuleEngine.evaluate_request_rate features =
        BehaviorRuleEngine.REQUEST_RATE_HIGH_RISK) ∧
    (BehaviorRuleEngine.evaluate_error_rate features = 0 ∨
      BehaviorRuleEngine.evaluate_error_rate features =
        BehaviorRuleEngine.ERROR_RATE_RISK) ∧
    (BehaviorRuleEngine.evaluate_sensitive_route_probing features = 0 ∨
      BehaviorRuleEngine.evaluate_sensitive_route_probing features =
        BehaviorRuleEngine.SENSITIVE_RATIO_RISK) ∧
    (BehaviorRuleEngine.evaluate_enumeration_behavior features = 0 ∨
      BehaviorRuleEngine.evaluate_enumeration_behavior features =
        BehaviorRuleEngine.ENUMERATION_RISK) ∧
    (BehaviorRuleEngine.evaluate_automation_pattern features = 0 ∨
      BehaviorRuleEngine.evaluate_automation_pattern features =
        BehaviorRuleEngine.AUTOMATION_RISK) ∧
    BehaviorRuleEngine.evaluate [] = 0 := by
  refine ⟨?_, request_rate_cases features, error_rate_cases features,
    sensitive_probing_cases features, enumeration_cases features,
    automation_cases features, by simp [BehaviorRuleEngine.evaluate]⟩
  unfold BehaviorRuleEngine.evaluate
  split
  · norm_num
  · constructor
    · refine le_min ?_ (by norm_num [BehaviorRuleEngine.MAX_RISK_DELTA])
      have h₁ := request_rate_nonneg features
      have h₂ := error_rate_nonneg features
      have h₃ := sensitive_probing_nonneg features
      have h₄ := enumeration_nonneg features
      have h₅ := automation_nonneg features
      linarith
    · calc min _ BehaviorRuleEngine.MAX_RISK_DELTA ≤
            BehaviorRuleEngine.MAX_RISK_DELTA := min_le_right _ _
        _ ≤ 1 / 2 := by norm_num [BehaviorRuleEngine.MAX_RISK_DELTA]

/-- Scenario B snapshot of claim C8 with 35 evenly spaced request timestamps
spanning 1.0 second. -/
def scenarioBEvenSnapshot : Snapshot :=
  { total_requests := some 35,
    request_timestamps := some ((List.range 35).map (fun i => (i : ℚ) / 34)),
    error_count := some 0,
    sensitive_route_hits := some 0,
    unique_route_count := some 35 }

/-- Scenario B snapshot of claim C8 with 35 request timestamps spanning 1.0
second whose inter-request intervals are irregular: 34 requests at time 0 and
one at time 1. -/
def scenarioBJitterSnapshot : Snapshot :=
  { total_requests := some 35,
    request_timestamps := some (List.replicate 34 (0 : ℚ) ++ [1]),
    error_count := some 0,
    sensitive_route_hits := some 0,
    unique_route_count := some 35 }

set_option maxRecDepth 8000 in
/-- Claim C8, counterexample: a snapshot meeting every stated condition
(total_requests = 35, unique_route_count = 35, 35 timestamps spanning 1.0
second, no errors, no sensitive hits) whose timestamps are evenly spaced has
zero interval variance, so the automation rule (+0.10) fires in addition to
the rate (+0.20) and enumeration (+0.15) rules and the pipeline returns 0.45,
not 0.35. -/
theorem scenarioB_even_spacing_delta_not_035 :
    scenarioBEvenSnapshot.total_requests = some 35 ∧
    scenarioBEvenSnapshot.unique_route_count = some 35 ∧
    scenarioBEvenSnapshot.error_count = some 0 ∧
    scenarioBEvenSnapshot.sensitive_route_hits = some 0 ∧
    (scenarioBEvenSnapshot.request_timestamps.getD []).length = 35 ∧
    listMax (scenarioBEvenSnapshot.request_timestamps.getD []) -
      listMin (scenarioBEvenSnapshot.request_timestamps.getD []) = 1 ∧
    BehaviorRuleEngine.evaluate
      (BehaviorFeatureExtractor.extract scenarioBEvenSnapshot) = 45 / 100 ∧
    BehaviorRuleEngine.evaluate
      (BehaviorFeatureExtractor.extract scenarioBEvenSnapshot) ≠ 35 / 100 := by
  have hfeat : BehaviorFeatureExtractor.extract scenarioBEvenSnapshot =
      [("total_requests", 35), ("requests_per_second", 35),
       ("session_duration", 1), ("interval_mean", 1 / 34),
       ("interval_variance", 0), ("error_rate", 0), ("sensitive_ratio", 0),
       ("route_diversity", 1)] := by
    norm_num [scenarioBEvenSnapshot, BehaviorFeatureExtractor.extract,
      BehaviorFeatureExtractor.extract_volume_features,
      BehaviorFeatureExtractor.extract_timing_features,
      BehaviorFeatureExtractor.extract_behavioral_ratios,
      Snapshot.isEmpty, listMin, listMax, listSum, listMean, sampleVariance,
      sortQ, insertSorted, intervalsOf, EPSILON, List.range, List.range.loop]
  have heval : BehaviorRuleEngine.evaluate
      [("total_requests", 35), ("requests_per_second", 35),
       ("session_duration", 1), ("interval_mean", 1 / 34),
       ("interval_variance", 0), ("error_rate", 0), ("sensitive_ratio", 0),
       ("route_diversity", 1)] = 45 / 100 := by
    unfold BehaviorRuleEngine.evaluate BehaviorRuleEngine.evaluate_request_rate
      BehaviorRuleEngine.evaluate_error_rate
      BehaviorRuleEngine.evaluate_sensitive_route_probing
      BehaviorRuleEngine.evaluate_enumeration_behavior
      BehaviorRuleEngine.evaluate_automation_pattern
    simp only [featGet]
    simp [List.lookup]
    norm_num [BehaviorRuleEngine.REQUEST_RATE_LOW_THRESHOLD,
      BehaviorRuleEngine.REQUEST_RATE_HIGH_THRESHOLD,
      BehaviorRuleEngine.REQUEST_RATE_LOW_RISK,
      BehaviorRuleEngine.REQUEST_RATE_HIGH_RISK,
      BehaviorRuleEngine.ERROR_RATE_THRESHOLD,
      BehaviorRuleEngine.ERROR_RATE_RISK,
      BehaviorRuleEngine.SENSITIVE_RATIO_THRESHOLD,
      BehaviorRuleEngine.SENSITIVE_RATIO_RISK,
      BehaviorRuleEngine.ROUTE_DIVERSITY_THRESHOLD,
      BehaviorRuleEngine.ENUMERATION_REQUEST_THRESHOLD,
      BehaviorRuleEngine.ENUMERATION_RISK,
      BehaviorRuleEngine.INTERVAL_VARIANCE_THRESHOLD,
      BehaviorRuleEngine.AUTOMATION_REQUEST_THRESHOLD,
      BehaviorRuleEngine.AUTOMATION_RISK,
      BehaviorRuleEngine.MAX_RISK_DELTA, min_def]
  refine ⟨rfl, rfl, rfl, rfl, ?_, ?_, ?_, ?_⟩
  · norm_num [scenarioBEvenSnapshot, List.range, List.range.loop]
  · norm_num [scenarioBEvenSnapshot, listMin, listMax, List.range,
      List.range.loop]
  · rw [hfeat, heval]
  · rw [hfeat, heval]
    norm_num

set_option maxRecDepth 8000 in
/-- Claim C8, amended: for such a snapshot whose inter-request intervals are
irregular enough that the interval variance is at least the automation
threshold 0.001, the pipeline fires exactly the enumeration rule (+0.15,
since route_diversity = 1.0 > 0.9 and total_requests = 35 > 30) and the
high request-rate rule (+0.20, since requests_per_second = 35.0 > 20), and
the returned risk delta is 0.35. -/
theorem scenarioB_jitter_delta_035 :
    scenarioBJitterSnapshot.total_requests = some 35 ∧
    scenarioBJitterSnapshot.unique_route_count = some 35 ∧
    scenarioBJitterSnapshot.error_count = some 0 ∧
    scenarioBJitterSnapshot.sensitive_route_hits = some 0 ∧
    (scenarioBJitterSnapshot.request_timestamps.getD []).length = 35 ∧
    listMax (scenarioBJitterSnapshot.request_timestamps.getD []) -
      listMin (scenarioBJitterSnapshot.request_timestamps.getD []) = 1 ∧
    BehaviorRuleEngine.INTERVAL_VARIANCE_THRESHOLD ≤
      featGet (BehaviorFeatureExtractor.extract scenarioBJitterSnapshot)
        "interval_variance" 0 ∧
    BehaviorRuleEngine.evaluate
      (BehaviorFeatureExtractor.extract scenarioBJitterSnapshot) = 35 / 100 := by
  have hfeat : BehaviorFeatureExtractor.extract scenarioBJitterSnapshot =
      [("total_requests", 35), ("requests_per_second", 35),
       ("session_duration", 1), ("interval_mean", 1 / 34),
       ("interval_variance", 1 / 34), ("error_rate", 0), ("sensitive_ratio", 0),
       ("route_diversity", 1)] := by
    norm_num [scenarioBJitterSnapshot, BehaviorFeatureExtractor.extract,
      BehaviorFeatureExtractor.extract_volume_features,
      BehaviorFeatureExtractor.extract_timing_features,
      BehaviorFeatureExtractor.extract_behavioral_ratios,
      Snapshot.isEmpty, listMin, listMax, listSum, listMean, sampleVariance,
      sortQ, insertSorted, intervalsOf, EPSILON, List.replicate]
  have heval : BehaviorRuleEngine.evaluate
      [("total_requests", 35), ("requests_per_second", 35),
       ("session_duration", 1), ("interval_mean", 1 / 34),
       ("interval_variance", 1 / 34), ("error_rate", 0), ("sensitive_ratio", 0),
       ("route_diversity", 1)] = 35 / 100 := by
    unfold BehaviorRuleEngine.evaluate BehaviorRuleEngine.evaluate_request_rate
      BehaviorRuleEngine.evaluate_error_rate
      BehaviorRuleEngine.evaluate_sensitive_route_probing
      BehaviorRuleEngine.evaluate_enumeration_behavior
      BehaviorRuleEngine.evaluate_automation_pattern
    simp only [featGet]
    simp [List.lookup]
    norm_num [BehaviorRuleEngine.REQUEST_RATE_LOW_THRESHOLD,
      BehaviorRuleEngine.REQUEST_RATE_HIGH_THRESHOLD,
      BehaviorRuleEngine.REQUEST_RATE_LOW_RISK,
      BehaviorRuleEngine.REQUEST_RATE_HIGH_RISK,
      BehaviorRuleEngine.ERROR_RATE_THRESHOLD,
      BehaviorRuleEngine.ERROR_RATE_RISK,
      BehaviorRuleEngine.SENSITIVE_RATIO_THRESHOLD,
      BehaviorRuleEngine.SENSITIVE_RATIO_RISK,
      BehaviorRuleEngine.ROUTE_DIVERSITY_THRESHOLD,
      BehaviorRuleEngine.ENUMERATION_REQUEST_THRESHOLD,
      BehaviorRuleEngine.ENUMERATION_RISK,
      BehaviorRuleEngine.INTERVAL_VARIANCE_THRESHOLD,
      BehaviorRuleEngine.AUTOMATION_REQUEST_THRESHOLD,
      BehaviorRuleEngine.AUTOMATION_RISK,
      BehaviorRuleEngine.MAX_RISK_DELTA, min_def]
  refine ⟨rfl, rfl, rfl, rfl, ?_, ?_, ?_, ?_⟩
  · norm_num [scenarioBJitterSnapshot, List.replicate]
  · norm_num [scenarioBJitterSnapshot, listMin, listMax, List.replicate]
  · rw [hfeat]
    have hget : featGet
        [("total_requests", (35:ℚ)), ("requests_per_second", 35),
         ("session_duration", 1), ("interval_mean", 1 / 34),
         ("interval_variance", 1 / 34), ("error_rate", 0),
         ("sensitive_ratio", 0), ("route_diversity", 1)]
        "interval_variance" 0 = 1 / 34 := by
      simp [featGet, List.lookup]
    rw [hget]
    norm_num [BehaviorRuleEngine.INTERVAL_VARIANCE_THRESHOLD]
  · rw [hfeat, heval]

/-- Claim C9: `extract` is total with defined defaults: an empty snapshot
returns an empty feature map; a snapshot with exactly one timestamp yields
requests_per_second = session_duration = interval_mean = interval_variance
= 0; and whenever total_requests is 0 (or absent), error_rate,
sensitive_ratio and route_diversity are all exactly 0. -/
theorem extract_total_with_defaults (snapshot : Snapshot) :
    (snapshot.isEmpty = true →
      BehaviorFeatureExtractor.extract snapshot = []) ∧
    (∀ t : ℚ, snapshot.request_timestamps = some [t] →
      featGet (BehaviorFeatureExtractor.extract snapshot)
          "requests_per_second" 0 = 0 ∧
        featGet (BehaviorFeatureExtractor.extract snapshot)
          "session_duration" 0 = 0 ∧
        featGet (BehaviorFeatureExtractor.extract snapshot)
          "interval_mean" 0 = 0 ∧
        featGet (BehaviorFeatureExtractor.extract snapshot)
          "interval_variance" 0 = 0) ∧
    (snapshot.total_requests.getD 0 = 0 →
      featGet (BehaviorFeatureExtractor.extract snapshot) "error_rate" 0 = 0 ∧
        featGet (BehaviorFeatureExtractor.extract snapshot)
          "sensitive_ratio" 0 = 0 ∧
        featGet (BehaviorFeatureExtractor.extract snapshot)
          "route_diversity" 0 = 0) := by
  refine ⟨fun h => by simp [BehaviorFeatureExtractor.extract, h], ?_, ?_⟩
  · intro t ht
    have hemp : snapshot.isEmpty = false := by
      simp [Snapshot.isEmpty, ht]
    simp [BehaviorFeatureExtractor.extract, hemp,
      BehaviorFeatureExtractor.extract_volume_features,
      BehaviorFeatureExtractor.extract_timing_features, ht, featGet,
      List.lookup]
  · intro h0
    by_cases hemp : snapshot.isEmpty = true
    · simp [BehaviorFeatureExtractor.extract, hemp, featGet]
    · unfold BehaviorFeatureExtractor.extract
      simp only [if_neg hemp]
      unfold BehaviorFeatureExtractor.extract_volume_features
        BehaviorFeatureExtractor.extract_timing_features
        BehaviorFeatureExtractor.extract_behavioral_ratios
      dsimp only
      rw [h0]
      split <;> simp [featGet, List.lookup]

/-- The all-defaults (empty dict) snapshot. -/
def emptySnapshot : Snapshot := {}

/-- A snapshot with exactly one request timestamp and a zero request count. -/
def singleTimestampSnapshot : Snapshot :=
  { total_requests := some 0, request_timestamps := some [5] }

theorem extract_total_with_defaults_witness :
    (emptySnapshot.isEmpty = true ∧
      BehaviorFeatureExtractor.extract emptySnapshot = []) ∧
    (singleTimestampSnapshot.request_timestamps = some [5] ∧
      featGet (BehaviorFeatureExtractor.extract singleTimestampSnapshot)
        "requests_per_second" 0 = 0 ∧
      featGet (BehaviorFeatureExtractor.extract singleTimestampSnapshot)
        "interval_variance" 0 = 0) ∧
    (singleTimestampSnapshot.total_requests.getD 0 = 0 ∧
      featGet (BehaviorFeatureExtractor.extract singleTimestampSnapshot)
        "route_diversity" 0 = 0) := by
  have h₂ := (extract_total_with_defaults singleTimestampSnapshot).2.1 5 rfl
  have h₃ := (extract_total_with_defaults singleTimestampSnapshot).2.2 rfl
  exact ⟨⟨rfl, (extract_total_with_defaults emptySnapshot).1 rfl⟩,
    ⟨rfl, h₂.1, h₂.2.2.2⟩, ⟨rfl, h₃.2.2⟩⟩

/-! ## app/canary/defnitions.py -/

/-- Mirror of the frozen dataclass `CanaryAction`. -/
structure CanaryAction where
  name : String
  description : String
  risk_impact : ℚ
  paths : List String
deriving DecidableEq, Repr

/-- First registry entry. -/
def hidden_export_endpoint : CanaryAction :=
  { name := "hidden_export_endpoint",
    description := "Access to non-UI export endpoint",
    risk_impact := 35 / 100,
    paths := ["/api/v1/export", "/api/v1/export-summary"] }

/-- Second registry entry. -/
def privilege_probe : CanaryAction :=
  { name := "privilege_probe",
    description := "Attempt to access or modify privilege-related fields",
    risk_impact := 40 / 100,
    paths := ["/api/v1/admin", "/api/v1/roles"] }

/-- Third registry entry. -/
def deep_pagination_probe : CanaryAction :=
  { name := "deep_pagination_probe",
    description := "Unusually deep pagination access",
    risk_impact := 25 / 100,
    paths := ["/api/v1/data"] }

/-- The fixed ordered canary registry. -/
def CANARY_ACTIONS : List CanaryAction :=
  [hidden_export_endpoint, privilege_probe, deep_pagination_probe]

/-! ## app/canary/detector.py -/

/-- Code points stripped by Python str.strip() with no arguments: the
characters whose str.isspace() is true. -/
def PY_WHITESPACE : List ℕ :=
  [0x09, 0x0A, 0x0B, 0x0C, 0x0D, 0x1C, 0x1D, 0x1E, 0x1F, 0x20, 0x85, 0xA0,
   0x1680, 0x2000, 0x2001, 0x2002, 0x2003, 0x2004, 0x2005, 0x2006, 0x2007,
   0x2008, 0x2009, 0x200A, 0x2028, 0x2029, 0x202F, 0x205F, 0x3000]

def isPySpace (c : Char) : Bool := PY_WHITESPACE.contains c.toNat

/-- Drop leading Python whitespace. -/
def stripLeading : List Char → List Char
  | [] => []
  | c :: cs => if isPySpace c then stripLeading cs else c :: cs

/-- Python str.strip(): drop surrounding whitespace on both ends. -/
def pyStrip (l : List Char) : List Char :=
  (stripLeading (stripLeading l).reverse).reverse

/-- First code points of the 10-codepoint decimal-digit blocks of Unicode
15.0 (general category Nd, Numeric_Type Decimal); Python int() in base 10
accepts exactly these digit characters. -/
def ND_RANGE_STARTS : List ℕ :=
  [0x30, 0x660, 0x6F0, 0x7C0, 0x966, 0x9E6, 0xA66, 0xAE6, 0xB66, 0xBE6,
   0xC66, 0xCE6, 0xD66, 0xDE6, 0xE50, 0xED0, 0xF20, 0x1040, 0x1090, 0x17E0,
   0x1810, 0x1946, 0x19D0, 0x1A80, 0x1A90, 0x1B50, 0x1BB0, 0x1C40, 0x1C50,
   0xA620, 0xA8D0, 0xA900, 0xA9D0, 0xA9F0, 0xAA50, 0xABF0, 0xFF10, 0x104A0,
   0x10D30, 0x11066, 0x110F0, 0x11136, 0x111D0, 0x112F0, 0x11450, 0x114D0,
   0x11650, 0x116C0, 0x11730, 0x118E0, 0x11950, 0x11C50, 0x11D50, 0x11DA0,
   0x11F50, 0x16A60, 0x16AC0, 0x16B50, 0x1D7CE, 0x1D7D8, 0x1D7E2, 0x1D7EC,
   0x1D7F6, 0x1E140, 0x1E2F0, 0x1E4F0, 0x1E950, 0x1FBF0]

/-- Decimal value of a Unicode decimal digit (category Nd): each Nd block is
10 consecutive code points holding the values 0 to 9. -/
def pyDigitVal (c : Char) : Option ℕ :=
  match ND_RANGE_STARTS.find? (fun s => s ≤ c.toNat && c.toNat < s + 10) with
  | some s => some (c.toNat - s)
  | none => none

/-- Continuation of the Python digitpart grammar `digit (["_"] digit)*` after
its first digit: a single underscore is allowed between two digits only.
`acc` is the value of the digits already consumed. -/
def parsePyDigits : List Char → ℕ → Option ℕ
  | [], acc => some acc
  | ['_'], _ => none
  | '_' :: c :: rest, acc =>
    match pyDigitVal c with
    | some d => parsePyDigits rest (acc * 10 + d)
    | none => none
  | c :: cs, acc =>
    match pyDigitVal c with
    | some d => parsePyDigits cs (acc * 10 + d)
    | none => none

/-- Unsigned Python digit string: at least one digit, then the
`digit (["_"] digit)*` grammar. -/
def parsePyNat : List Char → Option ℕ
  | c :: cs =>
    match pyDigitVal c with
    | some d => parsePyDigits cs d
    | none => none
  | [] => none

/-- Model of Python `int(s)` in base 10: strip surrounding whitespace, then
an optional sign followed by Unicode decimal digits (category Nd, Unicode
15.0) with optional single-underscore grouping between digits; a ValueError
becomes `none`.  In particular int(" 200 ") = 200 and int("1_000") = 1000. -/
def pyParseInt (s : String) : Option ℤ :=
  match pyStrip s.data with
  | '-' :: rest => (parsePyNat rest).map (fun n => -(n : ℤ))
  | '+' :: rest => (parsePyNat rest).map (fun n => (n : ℤ))
  | l => (parsePyNat l).map (fun n => (n : ℤ))

/-- Mirror of `detect_canary_hit` in app/canary/detector.py: scan the registry
for an exact path match; otherwise a truthy "page" query parameter that parses
to an integer above 100 triggers the deep-pagination entry; any parse failure
is swallowed (`except ValueError: pass`) and yields no match. -/
def detect_canary_hit (request_path : String)
    (query_params : List (String × String)) : Option CanaryAction :=
  match CANARY_ACTIONS.find? (fun c => c.paths.contains request_path) with
  | some c => some c
  | none =>
    match query_params.lookup "page" with
    | some page =>
      if page = "" then none
      else
        match pyParseInt page with
        | some n =>
          if 100 < n then
            CANARY_ACTIONS.find? (fun c => c.name == "deep_pagination_probe")
          else none
        | none => none
    | none => none

/-! ## Claim theorem C10 -/

/-- Claim C10: `detect_canary_hit` returns the registry entry whose paths
contain the request path as an exact match (the path sets of the three
entries are pairwise disjoint, so the matching entry is unique and is the
first match of the ordered scan); with no path match, a "page" query value
parsing to an integer above 100 under Python int() semantics (surrounding
whitespace, optional sign, Unicode decimal digits, underscore grouping)
returns the deep_pagination_probe entry; in every other case (including a
non-numeric "page" value, whose ValueError the source swallows) it returns
no match.  Totality is inherent: the embedding returns an Option and cannot
raise. -/
theorem detect_canary_hit_spec (request_path : String)
    (query_params : List (String × String)) :
    (∀ c ∈ CANARY_ACTIONS, request_path ∈ c.paths →
        detect_canary_hit request_path query_params = some c) ∧
    ((∀ c ∈ CANARY_ACTIONS, request_path ∉ c.paths) →
      (∀ p n, query_params.lookup "page" = some p → pyParseInt p = some n →
          100 < n →
          detect_canary_hit request_path query_params =
            some deep_pagination_probe) ∧
      ((∀ p n, query_params.lookup "page" = some p → pyParseInt p = some n →
          n ≤ 100) →
        detect_canary_hit request_path query_params = none)) := by
  constructor
  · intro c hc hpath
    have hc3 : c = hidden_export_endpoint ∨ c = privilege_probe ∨
        c = deep_pagination_probe := by simpa [CANARY_ACTIONS] using hc
    rcases hc3 with rfl | rfl | rfl
    · rcases (by simpa [hidden_export_endpoint] using hpath :
          request_path = "/api/v1/export" ∨
            request_path = "/api/v1/export-summary") with rfl | rfl <;>
        simp [detect_canary_hit, CANARY_ACTIONS, List.find?,
          hidden_export_endpoint, privilege_probe, deep_pagination_probe]
    · rcases (by simpa [privilege_probe] using hpath :
          request_path = "/api/v1/admin" ∨ request_path = "/api/v1/roles")
          with rfl | rfl <;>
        simp [detect_canary_hit, CANARY_ACTIONS, List.find?,
          hidden_export_endpoint, privilege_probe, deep_pagination_probe]
    · have : request_path = "/api/v1/data" := by
        simpa [deep_pagination_probe] using hpath
      subst this
      simp [detect_canary_hit, CANARY_ACTIONS, List.find?,
        hidden_export_endpoint, privilege_probe, deep_pagination_probe]
  · intro hnone
    have hfind : CANARY_ACTIONS.find?
        (fun c => c.paths.contains request_path) = none := by
      rw [List.find?_eq_none]
      intro c hc
      simpa using hnone c hc
    constructor
    · intro p n hp hparse hgt
      have hne : ¬ p = "" := by
        intro he
        subst he
        rw [show pyParseInt "" = none from by decide] at hparse
        simp at hparse
      unfold detect_canary_hit
      rw [hfind]
      dsimp only
      rw [hp]
      dsimp only
      rw [if_neg hne, hparse]
      dsimp only
      rw [if_pos hgt]
      simp [CANARY_ACTIONS, List.find?, hidden_export_endpoint,
        privilege_probe, deep_pagination_probe]
    · intro hble
      unfold detect_canary_hit
      rw [hfind]
      dsimp only
      cases hq : query_params.lookup "page" with
      | none => rfl
      | some p =>
          dsimp only
          by_cases hpe : p = ""
          · rw [if_pos hpe]
          · rw [if_neg hpe]
            cases hparse : pyParseInt p with
            | none => rfl
            | some n =>
                dsimp only
                rw [if_neg (not_lt.mpr (hble p n hq hparse))]

theorem detect_canary_hit_spec_witness :
    (privilege_probe ∈ CANARY_ACTIONS ∧
      "/api/v1/roles" ∈ privilege_probe.paths ∧
      detect_canary_hit "/api/v1/roles" [] = some privilege_probe) ∧
    (pyParseInt "500" = some 500 ∧
      detect_canary_hit "/search" [("page", "500")] =
        some deep_pagination_probe) ∧
    (pyParseInt " 200 " = some 200 ∧
      detect_canary_hit "/search" [("page", " 200 ")] =
        some deep_pagination_probe) ∧
    (pyParseInt "1_000" = some 1000 ∧
      detect_canary_hit "/search" [("page", "1_000")] =
        some deep_pagination_probe) ∧
    (pyParseInt "abc" = none ∧
      detect_canary_hit "/search" [("page", "abc")] = none) := by
  have hnone : ∀ c ∈ CANARY_ACTIONS, "/search" ∉ c.paths := by
    intro c hc
    rcases (by simpa [CANARY_ACTIONS] using hc : c = hidden_export_endpoint ∨
        c = privilege_probe ∨ c = deep_pagination_probe) with rfl | rfl | rfl <;>
      simp [hidden_export_endpoint, privilege_probe, deep_pagination_probe]
  refine ⟨⟨by simp [CANARY_ACTIONS], by simp [privilege_probe], ?_⟩,
    ⟨by decide, ?_⟩, ⟨by decide, ?_⟩, ⟨by decide, ?_⟩, ⟨by decide, ?_⟩⟩
  · exact (detect_canary_hit_spec "/api/v1/roles" []).1 privilege_probe
      (by simp [CANARY_ACTIONS]) (by simp [privilege_probe])
  · exact ((detect_canary_hit_spec "/search" [("page", "500")]).2 hnone).1
      "500" 500 (by simp [List.lookup]) (by decide) (by norm_num)
  · exact ((detect_canary_hit_spec "/search" [("page", " 200 ")]).2 hnone).1
      " 200 " 200 (by simp [List.lookup]) (by decide) (by norm_num)
  · exact ((detect_canary_hit_spec "/search" [("page", "1_000")]).2 hnone).1
      "1_000" 1000 (by simp [List.lookup]) (by decide) (by norm_num)
  · refine ((detect_canary_hit_spec "/search" [("page", "abc")]).2 hnone).2 ?_
    intro p n hp hparse
    have hpv : p = "abc" := by
      have := by simpa [List.lookup] using hp
      exact this.symm
    subst hpv
    rw [show pyParseInt "abc" = none from by decide] at hparse
    exact absurd hparse (by simp)

end PhantomShield
